import Mathlib

/-!
# Verification of the `wamp_async` session-engine sources

A shallow embedding, in Lean 4, of the WAMP client session engine of this
repository: the strict-URI validator (`src/common.rs`) and the per-operation
request handlers (`src/core/send.rs`).  Pure Rust functions become Lean
functions; the stateful `Core` is passed explicitly; the transport is a
script of send outcomes and received frames; fallible paths (Rust `panic!`
via `Option::unwrap`) return `Option`.

The repository ships only `common.rs`, `core/send.rs`, `lib.rs` and the
options modules; the companion modules (`core/mod.rs`, `message.rs`,
`error.rs`, `client.rs`) are referenced but absent, so their small surface
(the `Core` state record, the `Msg` frame enum, the `WampError` type, the
`Status` enum) is modelled from the specification, each such definition
marked `Modelled from the spec:` in its doc comment.
-/

namespace WampAsync

/-! ## Basic protocol value types -/

/-- WAMP ids are unsigned integers in `1 .. 2^53`; arithmetic on them in the
shown code is bare increment, far from the bound, so they are embedded as
`Nat`. -/
abbrev WampId := Nat

abbrev WampString := String

abbrev WampInteger := Nat

/-- A WAMP argument value (the payload value type).  The shown code only ever
builds strings, lists and dictionaries of arguments; the embedding carries
those constructors (a dictionary is an association list, first binding
wins on lookup, mirroring a hash map's replace-on-insert). -/
inductive Arg : Type where
  | String (s : WampString)
  | Integer (i : WampInteger)
  | Dict (d : List (WampString × Arg))
  | List (l : List Arg)
deriving Repr, BEq

abbrev WampDict := List (WampString × Arg)

abbrev WampArgs := List Arg

abbrev WampKwArgs := WampDict

/-- `HashMap::insert`: replace the binding for `k` if present, else add it. -/
def dictInsert (d : WampDict) (k : WampString) (v : Arg) : WampDict :=
  match d with
  | [] => [(k, v)]
  | (k0, v0) :: rest =>
    if k0 = k then (k, v) :: rest else (k0, v0) :: dictInsert rest k v

/-! ## The strict URI validator (`src/common.rs`, lines 40–74)

`is_valid_strict_uri` iterates the characters of the URI keeping a count of
the characters of the current dot-delimited token.  The embedding mirrors
the Rust loop body statement by statement; note that the `c == '.'` arm of
the first `if` does **not** skip the remaining checks of the loop body (there
is no `continue` there in the source), so a `'.'` also reaches the
`is_lowercase` test.  Rust's Unicode character classes are embedded by their
ASCII restrictions (`Char.isLower`, `Char.isAlphanum`), which agree with
Rust on every ASCII scalar value. -/

/-- Rust `char::is_lowercase`, restricted to its ASCII behaviour. -/
def char_is_lowercase (c : Char) : Bool := c.isLower

/-- Rust `char::is_alphanumeric`, restricted to its ASCII behaviour. -/
def char_is_alphanumeric (c : Char) : Bool := c.isAlphanum

/-- Rust `str::starts_with` on the underlying character sequences. -/
def starts_with : List Char → List Char → Bool
  | _, [] => true
  | [], _ :: _ => false
  | c :: cs, p :: ps => c = p && starts_with cs ps

/-- The `for (i, c) in uri.chars().enumerate()` loop of `is_valid_strict_uri`,
threading `num_chars_token`.  Each arm mirrors one statement of the body:
the dot bookkeeping, the `c == '_'` `continue`, then the two character-class
rejections. -/
def uri_loop : List Char → Nat → Bool
  | [], _ => true
  | c :: rest, num_chars_token =>
    if c = '.' then
      if num_chars_token = 0 then
        false
      else if c = '_' then uri_loop rest 0
      else if !char_is_lowercase c then false
      else if !char_is_alphanumeric c then false
      else uri_loop rest 0
    else
      if c = '_' then uri_loop rest (num_chars_token + 1)
      else if !char_is_lowercase c then false
      else if !char_is_alphanumeric c then false
      else uri_loop rest (num_chars_token + 1)

/-- `common.rs::is_valid_strict_uri`: reject the reserved `wamp.` prefix,
then run the character loop with an initially empty token. -/
def is_valid_strict_uri (in_uri : String) : Bool :=
  if starts_with in_uri.data "wamp.".data then false
  else uri_loop in_uri.data 0

/-! ## Errors and auxiliary protocol types

`src/error.rs` is not among the shipped sources; only its use sites are.
The variants below are modelled from the spec's §7 error kinds as they are
reachable from `send.rs`: an application error carrying an error-URI and a
structured detail payload (`WampError::ApplicationError(c, d)` is matched in
`invoke_yield`), a connection/transport failure (what `core.send`/`core.recv`
return), and the target of the `From<String>` conversion used by every
`From::from("...".to_string())` site. -/

/-- Modelled from the spec: the structured detail payload of an application
error (its carrier type lives in the missing `message.rs`): optional
positional and keyword values, read back by `get_args`/`get_kwargs`
(each returning an `Option` that `invoke_yield` unwraps). -/
structure ServiceDetails : Type where
  arguments : Option WampArgs
  arguments_kw : Option WampKwArgs
deriving Repr, BEq

def ServiceDetails.get_args (d : ServiceDetails) : Option WampArgs :=
  d.arguments

def ServiceDetails.get_kwargs (d : ServiceDetails) : Option WampKwArgs :=
  d.arguments_kw

/-- Modelled from the spec: the error type of the missing `src/error.rs`,
restricted to the shapes reachable from `send.rs` — `ApplicationError`
(error-URI plus detail payload), a transport/connection failure, and the
generic variant produced by the `From<String>` conversion. -/
inductive WampError : Type where
  | ApplicationError (uri : WampString) (details : ServiceDetails)
  | ConnectionError (msg : String)
  | UnknownError (msg : String)
deriving Repr, BEq

/-- The `From<String>` conversion used by `From::from("...".to_string())`. -/
def WampError.fromString (s : String) : WampError :=
  WampError.UnknownError s

/-- Modelled from the spec: Rust's `format!("{:?}", e)` debug rendering of a
`WampError` — "the error's textual description" that `invoke_yield` puts in
the generic ERROR payload. -/
def WampError.debug_fmt : WampError → String
  | .ApplicationError uri _ => "ApplicationError(\"" ++ uri ++ "\", ..)"
  | .ConnectionError m => "ConnectionError(\"" ++ m ++ "\")"
  | .UnknownError m => "UnknownError(\"" ++ m ++ "\")"

/-- `common.rs::ClientRole` (the four announced client roles). -/
inductive ClientRole : Type where
  | Caller
  | Callee
  | Publisher
  | Subscriber
deriving Repr, BEq

/-- `common.rs::ClientRole::to_string`, also backing the `to_str` used by
`join_realm` when building the `roles` dictionary. -/
def ClientRole.to_str : ClientRole → WampString
  | .Caller => "caller"
  | .Callee => "callee"
  | .Publisher => "publisher"
  | .Subscriber => "subscriber"

/-- Modelled from the spec: `ClientRole::has_features` (defined outside the
shipped sources).  §4.1: each role may declare a `features` sub-map; the
source comment notes pattern-based subscription must be announced by
Subscribers, so the Subscriber role is the one carrying features. -/
def ClientRole.has_features : ClientRole → Bool
  | .Subscriber => true
  | _ => false

/-- Modelled from the spec: `ClientRole::get_features`, the `features`
sub-map announced for a role that has features. -/
def ClientRole.get_features (_ : ClientRole) : WampDict :=
  [("pattern_based_subscription", Arg.Integer 1)]

/-- Modelled from the spec: the WAMP frame-type code for INVOCATION
(`INVOCATION_ID` of the missing `message.rs`; 68 in the WAMP protocol),
stamped into the `typ` field of the ERROR frames built by `invoke_yield`. -/
def INVOCATION_ID : WampInteger := 68

/-! ## Protocol frames

`src/message.rs` is absent; the frame enum below is modelled from the
spec's §2 closed frame set, with exactly the fields the `send.rs` use sites
construct and match. -/

/-- Modelled from the spec: the protocol frame variants (§2), with the
fields used by `send.rs`. -/
inductive Msg : Type where
  | Hello (realm : WampString) (details : WampDict)
  | Welcome (session : WampId) (details : WampDict)
  | Challenge (authentication_method : WampString) (extra : WampDict)
  | Authenticate (signature : WampString) (extra : WampDict)
  | Goodbye (reason : WampString) (details : WampDict)
  | Subscribe (request : WampId) (topic : WampString) (options : WampDict)
  | Unsubscribe (request : WampId) (subscription : WampId)
  | Publish (request : WampId) (topic : WampString) (options : WampDict)
      (arguments : Option WampArgs) (arguments_kw : Option WampKwArgs)
  | Register (request : WampId) (procedure : WampString) (options : WampDict)
  | Unregister (request : WampId) (registration : WampId)
  | Call (request : WampId) (procedure : WampString) (options : WampDict)
      (arguments : Option WampArgs) (arguments_kw : Option WampKwArgs)
  | Yield (request : WampId) (options : WampDict)
      (arguments : Option WampArgs) (arguments_kw : Option WampKwArgs)
  | Error (typ : WampInteger) (request : WampId) (details : WampDict)
      (error : WampString) (arguments : Option WampArgs)
      (arguments_kw : Option WampKwArgs)
deriving Repr, BEq

/-- Is this frame an AUTHENTICATE frame? -/
def Msg.is_authenticate : Msg → Bool
  | .Authenticate _ _ => true
  | _ => false

/-- Modelled from the spec: the debug rendering of a frame, interpolated
into the "Server did not respond with WELCOME : {:?}" message. -/
def Msg.debug_fmt : Msg → String
  | .Hello _ _ => "Hello"
  | .Welcome _ _ => "Welcome"
  | .Challenge _ _ => "Challenge"
  | .Authenticate _ _ => "Authenticate"
  | .Goodbye _ _ => "Goodbye"
  | .Subscribe _ _ _ => "Subscribe"
  | .Unsubscribe _ _ => "Unsubscribe"
  | .Publish _ _ _ _ _ => "Publish"
  | .Register _ _ _ => "Register"
  | .Unregister _ _ => "Unregister"
  | .Call _ _ _ _ _ => "Call"
  | .Yield _ _ _ _ => "Yield"
  | .Error _ _ _ _ _ _ => "Error"

/-! ## The engine state, transport model and handler outputs

`src/core/mod.rs` is absent; the `Core` record, `Status` enum and
`create_request` are modelled from the spec (§3 data model, §2 engine
description), with exactly the fields `send.rs` touches.  Continuations
(one-shot senders) and procedure-handler closures are opaque to the engine;
they are embedded as `Nat` tokens, and what a handler writes into a
continuation is reported in the handler's output record instead.  The
transport is embedded as a script: a list of outcomes for successive
`core.send` calls (`none` = accepted, `some e` = transport error) and a
list of results for successive `core.recv` calls. -/

/-- Modelled from the spec: the status a request handler returns to the
engine's run loop — `Shutdown` tears the engine down (§7: transport errors
are always fatal). -/
inductive Status : Type where
  | Ok
  | Shutdown
deriving Repr, BEq

/-- An opaque one-shot completion channel (a `tokio` oneshot sender). -/
abbrev ResToken := Nat

/-- An opaque user-supplied procedure handler (`RpcFunc`). -/
abbrev RpcTok := Nat

/-- Modelled from the spec: the engine state of the missing `core/mod.rs`
(§3): the `valid` flag, the request-id counter (starts at 1, strictly
increasing), the pending-request-id set, the four correlation tables and
the two local id tables.  Tables are association lists, first binding
wins. -/
structure Core : Type where
  valid_session : Bool
  next_request_id : WampId
  pending_requests : List WampId
  pending_sub : List (WampId × ResToken)
  pending_transactions : List (WampId × ResToken)
  pending_register : List (WampId × (RpcTok × ResToken))
  pending_call : List (WampId × ResToken)
  subscriptions : List (WampId × ResToken)
  rpc_endpoints : List (WampId × RpcTok)
deriving Repr, BEq

/-- Modelled from the spec: `Core::create_request` (§3): hand out the next
id from the strictly-increasing counter and record it in the pending set. -/
def Core.create_request (c : Core) : WampId × Core :=
  let request := c.next_request_id
  (request,
   { c with
     next_request_id := request + 1
     pending_requests := request :: c.pending_requests })

/-- Remove the first binding of `k` from an association list
(`HashMap::remove` on the key). -/
def removeKey {α : Type} (k : WampId) : List (WampId × α) → List (WampId × α)
  | [] => []
  | (k0, v0) :: rest => if k0 = k then rest else (k0, v0) :: removeKey k rest

/-- One `core.send` call as observed at the transport boundary: the frame
handed to the transport and the outcome the transport returned. -/
structure SendEffect : Type where
  frame : Msg
  outcome : Option WampError
deriving Repr, BEq

/-- The output of a single request handler: the engine state it leaves
behind, the status it returns, the frames it handed to the transport, and
the value (if any) it wrote into the caller's one-shot channel. -/
structure HandlerOut (ρ : Type) : Type where
  core : Core
  status : Status
  sends : List SendEffect
  resolution : Option ρ
deriving Repr, BEq

/-! ## The request handlers of `src/core/send.rs`

Each Lean function mirrors one `pub async fn` of `send.rs` line by line.
The handlers below perform at most one `core.send`, so they take that one
send's outcome directly.  In these handlers the only value ever written to
the continuation is an error (success is resolved later by the inbound
dispatcher), so their `resolution` type is `WampError`. -/

/-- `send.rs::subscribe` (lines 207–229): allocate a request id, send
SUBSCRIBE; on failure remove the id again and return `Shutdown` — the
`res.send(Err(e))` in that branch is commented out in the source, so the
continuation is left unresolved; on success park the continuation in
`pending_sub`. -/
def subscribe (core : Core) (topic : WampString) (options : WampDict)
    (res : ResToken) (send1 : Option WampError) : HandlerOut WampError :=
  let (request, core1) := core.create_request
  let msg := Msg.Subscribe request topic options
  match send1 with
  | some e =>
    { core := { core1 with
                pending_requests := core1.pending_requests.erase request }
      status := Status.Shutdown
      sends := [⟨msg, some e⟩]
      resolution := none }
  | none =>
    { core := { core1 with pending_sub := (request, res) :: core1.pending_sub }
      status := Status.Ok
      sends := [⟨msg, none⟩]
      resolution := none }

/-- `send.rs::unsubscribe` (lines 231–264): if `sub_id` is not a local
subscription, resolve the caller with an error at once and send nothing;
otherwise drop the local entry, allocate a request id, send UNSUBSCRIBE
(rolling back and resolving with the error on failure) and park in
`pending_transactions`. -/
def unsubscribe (core : Core) (sub_id : WampId) (res : ResToken)
    (send1 : Option WampError) : HandlerOut WampError :=
  match (core.subscriptions.lookup sub_id : Option ResToken) with
  | none =>
    { core := core
      status := Status.Ok
      sends := []
      resolution :=
        some (WampError.fromString "Tried to unsubscribe from unknown sub_id") }
  | some _ =>
    let core0 := { core with subscriptions := removeKey sub_id core.subscriptions }
    let (request, core1) := core0.create_request
    let msg := Msg.Unsubscribe request sub_id
    match send1 with
    | some e =>
      { core := { core1 with
                  pending_requests := core1.pending_requests.erase request }
        status := Status.Shutdown
        sends := [⟨msg, some e⟩]
        resolution := some e }
    | none =>
      { core := { core1 with
                  pending_transactions :=
                    (request, res) :: core1.pending_transactions }
        status := Status.Ok
        sends := [⟨msg, none⟩]
        resolution := none }

/-- `send.rs::publish` (lines 266–294): always allocate a request id and
send PUBLISH; on failure roll the id back and resolve the caller with the
error; on success park in `pending_transactions`. -/
def publish (core : Core) (uri : WampString) (options : WampDict)
    (arguments : Option WampArgs) (arguments_kw : Option WampKwArgs)
    (res : ResToken) (send1 : Option WampError) : HandlerOut WampError :=
  let (request, core1) := core.create_request
  let msg := Msg.Publish request uri options arguments arguments_kw
  match send1 with
  | some e =>
    { core := { core1 with
                pending_requests := core1.pending_requests.erase request }
      status := Status.Shutdown
      sends := [⟨msg, some e⟩]
      resolution := some e }
  | none =>
    { core := { core1 with
                pending_transactions := (request, res) :: core1.pending_transactions }
      status := Status.Ok
      sends := [⟨msg, none⟩]
      resolution := none }

/-- `send.rs::register` (lines 296–325): allocate a request id, default the
options, send REGISTER (rollback and resolve with the error on failure),
then park the handler and the continuation together in `pending_register`. -/
def register (core : Core) (uri : WampString) (res : ResToken)
    (func_ptr : RpcTok) (options : Option WampDict)
    (send1 : Option WampError) : HandlerOut WampError :=
  let (request, core1) := core.create_request
  let op := match options with
    | some c => c
    | none => []
  let msg := Msg.Register request uri op
  match send1 with
  | some e =>
    { core := { core1 with
                pending_requests := core1.pending_requests.erase request }
      status := Status.Shutdown
      sends := [⟨msg, some e⟩]
      resolution := some e }
  | none =>
    { core := { core1 with
                pending_register := (request, (func_ptr, res)) :: core1.pending_register }
      status := Status.Ok
      sends := [⟨msg, none⟩]
      resolution := none }

/-- `send.rs::unregister` (lines 327–360): if `rpc_id` is not a local
registration, resolve the caller with an error at once and send nothing;
otherwise remove the local endpoint eagerly, allocate a request id, send
UNREGISTER (rollback and resolve with the error on failure) and park in
`pending_transactions`. -/
def unregister (core : Core) (rpc_id : WampId) (res : ResToken)
    (send1 : Option WampError) : HandlerOut WampError :=
  match (core.rpc_endpoints.lookup rpc_id : Option RpcTok) with
  | none =>
    { core := core
      status := Status.Ok
      sends := []
      resolution :=
        some (WampError.fromString "Tried to unregister RPC using invalid ID") }
  | some _ =>
    let core0 := { core with rpc_endpoints := removeKey rpc_id core.rpc_endpoints }
    let (request, core1) := core0.create_request
    let msg := Msg.Unregister request rpc_id
    match send1 with
    | some e =>
      { core := { core1 with
                  pending_requests := core1.pending_requests.erase request }
        status := Status.Shutdown
        sends := [⟨msg, some e⟩]
        resolution := some e }
    | none =>
      { core := { core1 with
                  pending_transactions :=
                    (request, res) :: core1.pending_transactions }
        status := Status.Ok
        sends := [⟨msg, none⟩]
        resolution := none }

/-- `send.rs::call` (lines 416–444): allocate a request id, send CALL
(rollback and resolve with the error on failure), park in `pending_call`. -/
def call (core : Core) (uri : WampString) (options : WampDict)
    (arguments : Option WampArgs) (arguments_kw : Option WampKwArgs)
    (res : ResToken) (send1 : Option WampError) : HandlerOut WampError :=
  let (request, core1) := core.create_request
  let msg := Msg.Call request uri options arguments arguments_kw
  match send1 with
  | some e =>
    { core := { core1 with
                pending_requests := core1.pending_requests.erase request }
      status := Status.Shutdown
      sends := [⟨msg, some e⟩]
      resolution := some e }
  | none =>
    { core := { core1 with
                pending_call := (request, res) :: core1.pending_call }
      status := Status.Ok
      sends := [⟨msg, none⟩]
      resolution := none }

/-- `send.rs::leave_realm` (lines 188–205): mark the session invalid
*before* attempting the GOODBYE send; on send failure resolve the caller
with the error and return `Shutdown`; on success resolve with `Ok(())`
without consuming any inbound frame (the model takes no receive script:
the handler never waits for a peer GOODBYE). -/
def leave_realm (core : Core) (_res : ResToken) (send1 : Option WampError) :
    HandlerOut (Except WampError Unit) :=
  let core1 := { core with valid_session := false }
  let msg := Msg.Goodbye "wamp.close.close_realm" []
  match send1 with
  | some e =>
    { core := core1
      status := Status.Shutdown
      sends := [⟨msg, some e⟩]
      resolution := some (Except.error e) }
  | none =>
    { core := core1
      status := Status.Ok
      sends := [⟨msg, none⟩]
      resolution := some (Except.ok ()) }

/-- `send.rs::invoke_yield` (lines 362–414): turn an invocation outcome
into a YIELD (success) or ERROR (failure) frame and send it, returning
`Shutdown` exactly when the send fails.  On failure, an
`ApplicationError(c, d)` contributes its own URI `c` and the payload's
positional/keyword values (`d.get_args().unwrap()` /
`d.get_kwargs().unwrap()` — the `Option.unwrap` panics, hence the `Option`
result, when the payload lacks them); any other error contributes the
library URI `"wamp.async.rs.rpc.failed"` with the debug rendering of the
error as sole positional argument. -/
def invoke_yield (core : Core) (request : WampId)
    (res : Except WampError (Option WampArgs × Option WampKwArgs))
    (send1 : Option WampError) : Option (HandlerOut Empty) :=
  let msgOpt : Option Msg :=
    match res with
    | Except.ok (arguments, arguments_kw) =>
      some (Msg.Yield request [] arguments arguments_kw)
    | Except.error e =>
      let uri := match e with
        | WampError.ApplicationError c _ => c
        | _ => "wamp.async.rs.rpc.failed"
      let service_details := match e with
        | WampError.ApplicationError _ d => some d
        | _ => none
      match service_details with
      | some d =>
        match d.get_args, d.get_kwargs with
        | some arguments, some kwargs =>
          some (Msg.Error INVOCATION_ID request [] uri
                  (some arguments) (some kwargs))
        | _, _ => none
      | none =>
        some (Msg.Error INVOCATION_ID request [] uri
                (some [Arg.String e.debug_fmt]) (some []))
  msgOpt.map fun msg =>
    match send1 with
    | some e =>
      { core := core, status := Status.Shutdown
        sends := [⟨msg, some e⟩], resolution := none }
    | none =>
      { core := core, status := Status.Ok
        sends := [⟨msg, none⟩], resolution := none }

/-! ## `join_realm` and its CHALLENGE loop (`send.rs` lines 66–185) -/

/-- The caller-supplied challenge handler's successful reply
(`AuthenticationChallengeResponse`). -/
structure AuthenticationChallengeResponse : Type where
  signature : WampString
  extra : WampDict

/-- The challenge-handler boundary (§6): `(method, extra) -> Result`;
the embedding drops the asynchrony. -/
abbrev ChallengeHandler :=
  WampString → WampDict → Except WampError AuthenticationChallengeResponse

/-- Pop the next scripted outcome of a `core.send` call (an exhausted
script accepts the frame). -/
def popSend : List (Option WampError) →
    Option WampError × List (Option WampError)
  | [] => (none, [])
  | o :: rest => (o, rest)

/-- One `core.recv` result; an exhausted receive script is a closed
connection, i.e. a transport error. -/
abbrev RecvResult := Except WampError Msg

/-- The outcome of the WELCOME/CHALLENGE loop: the AUTHENTICATE sends it
performed, how many times it invoked the challenge handler, and either the
WELCOME payload or the error it aborts with. -/
structure JoinLoopOut : Type where
  sends : List SendEffect
  handler_calls : Nat
  outcome : Except WampError (WampId × WampDict)

/-- The `loop` of `join_realm` (lines 133–178), one iteration per received
frame: WELCOME breaks out with its payload; CHALLENGE with no handler
aborts with the no-handler error; CHALLENGE with a handler invokes it and
replies AUTHENTICATE (aborting on a handler error or a send failure), then
re-enters the loop; any other frame, or a receive error, aborts. -/
def join_loop (handler : Option ChallengeHandler) :
    List RecvResult → List (Option WampError) → JoinLoopOut
  | [], _ =>
    { sends := [], handler_calls := 0
      outcome := Except.error (WampError.ConnectionError "connection closed") }
  | r :: rest, sendScript =>
    match r with
    | Except.error e =>
      { sends := [], handler_calls := 0, outcome := Except.error e }
    | Except.ok (Msg.Welcome session details) =>
      { sends := [], handler_calls := 0, outcome := Except.ok (session, details) }
    | Except.ok (Msg.Challenge authentication_method extra) =>
      match handler with
      | none =>
        { sends := [], handler_calls := 0
          outcome := Except.error (WampError.fromString
            "Server requested a CHALLENGE to authenticate, but there was no challenge handler provided") }
      | some on_challenge_handler =>
        match on_challenge_handler authentication_method extra with
        | Except.ok resp =>
          let (o, sendScript1) := popSend sendScript
          let authMsg := Msg.Authenticate resp.signature resp.extra
          match o with
          | some e =>
            { sends := [⟨authMsg, some e⟩], handler_calls := 1
              outcome := Except.error e }
          | none =>
            let tail := join_loop handler rest sendScript1
            { sends := ⟨authMsg, none⟩ :: tail.sends
              handler_calls := 1 + tail.handler_calls
              outcome := tail.outcome }
        | Except.error e =>
          { sends := [], handler_calls := 1, outcome := Except.error e }
    | Except.ok m =>
      { sends := [], handler_calls := 0
        outcome := Except.error (WampError.fromString
          ("Server did not respond with WELCOME : " ++ m.debug_fmt)) }

/-- The `details` dictionary built by `join_realm` (lines 77–118) before
sending HELLO: the announced roles, the optional agent string, and — when
authentication methods are supplied — the `authmethods` list and (when an
extra map is supplied) an `authextra` holding the extra map's `"pubkey"`
entry, whose absence is an unguarded `Option::unwrap` panic (`none`
result).  The `authid`, when supplied, is inserted last. -/
def join_details (roles : List ClientRole) (agent_str : Option WampString)
    (authentication_methods : List WampString)
    (authextra : Option (List (String × String)))
    (authid : Option WampString) : Option WampDict :=
  let client_roles := roles.foldl
    (fun acc role =>
      let roledict : WampDict :=
        if role.has_features then
          dictInsert [] "features" (Arg.Dict role.get_features)
        else []
      dictInsert acc role.to_str (Arg.Dict roledict))
    []
  let details0 := dictInsert [] "roles" (Arg.Dict client_roles)
  let details1 := match agent_str with
    | some agent => dictInsert details0 "agent" (Arg.String agent)
    | none => details0
  let details2 : Option WampDict :=
    if authentication_methods.isEmpty then some details1
    else
      let withMethods := dictInsert details1 "authmethods"
        (Arg.List (authentication_methods.map Arg.String))
      match authextra with
      | none => some withMethods
      | some extra =>
        match extra.lookup "pubkey" with
        | none => none
        | some pubkey =>
          some (dictInsert withMethods "authextra"
            (Arg.Dict (dictInsert [] "pubkey" (Arg.String pubkey))))
  details2.map fun d =>
    match authid with
    | some a => dictInsert d "authid" (Arg.String a)
    | none => d

/-- `send.rs::join_realm` (lines 66–185): build the HELLO details (a
`none` result is the pubkey-`unwrap` panic, which happens before anything
is sent or resolved), send HELLO (resolving the caller with the error and
shutting down on failure), then run the WELCOME/CHALLENGE loop; on
WELCOME mark the session valid and resolve the caller with the session id
and the router's details. -/
def join_realm (core : Core) (uri : WampString) (roles : List ClientRole)
    (agent_str : Option WampString) (authentication_methods : List WampString)
    (authextra : Option (List (String × String))) (authid : Option WampString)
    (on_challenge_handler : Option ChallengeHandler)
    (sendScript : List (Option WampError)) (recvScript : List RecvResult) :
    Option (HandlerOut (Except WampError (WampId × WampDict)) × Nat) :=
  (join_details roles agent_str authentication_methods authextra authid).map
    fun details =>
      let helloMsg := Msg.Hello uri details
      let (o, sendScript1) := popSend sendScript
      match o with
      | some e =>
        ({ core := core
           status := Status.Shutdown
           sends := [⟨helloMsg, some e⟩]
           resolution := some (Except.error e) }, 0)
      | none =>
        let lp := join_loop on_challenge_handler recvScript sendScript1
        match lp.outcome with
        | Except.ok (session_id, server_roles) =>
          ({ core := { core with valid_session := true }
             status := Status.Ok
             sends := ⟨helloMsg, none⟩ :: lp.sends
             resolution := some (Except.ok (session_id, server_roles)) },
           lp.handler_calls)
        | Except.error e =>
          ({ core := core
             status := Status.Shutdown
             sends := ⟨helloMsg, none⟩ :: lp.sends
             resolution := some (Except.error e) },
           lp.handler_calls)

/-- The number of challenge-handler invocations of a (possibly panicked)
`join_realm` run. -/
def join_handler_calls
    (out : Option (HandlerOut (Except WampError (WampId × WampDict)) × Nat)) :
    Nat :=
  match out with
  | none => 0
  | some (_, n) => n

/-- The frames a (possibly panicked) `join_realm` run handed to the
transport. -/
def join_sends
    (out : Option (HandlerOut (Except WampError (WampId × WampDict)) × Nat)) :
    List SendEffect :=
  match out with
  | none => []
  | some (h, _) => h.sends

/-- The status of a (completed) `join_realm` run. -/
def join_status
    (out : Option (HandlerOut (Except WampError (WampId × WampDict)) × Nat)) :
    Option Status :=
  out.map fun p => p.1.status

/-- The value a (completed) `join_realm` run wrote into the caller's
one-shot channel. -/
def join_resolution
    (out : Option (HandlerOut (Except WampError (WampId × WampDict)) × Nat)) :
    Option (Except WampError (WampId × WampDict)) :=
  match out with
  | none => none
  | some (h, _) => h.resolution

/-- The number of CHALLENGE frames in a receive script. -/
def challenge_count : List RecvResult → Nat
  | [] => 0
  | Except.ok (Msg.Challenge _ _) :: rest => 1 + challenge_count rest
  | _ :: rest => challenge_count rest

/-! ## Concrete fixtures for witnesses and counterexamples -/

/-- A fresh engine state: no session, counter at 1, all tables empty. -/
def core0 : Core :=
  { valid_session := false
    next_request_id := 1
    pending_requests := []
    pending_sub := []
    pending_transactions := []
    pending_register := []
    pending_call := []
    subscriptions := []
    rpc_endpoints := [] }

/-- A sample transport failure. -/
def e0 : WampError := WampError.ConnectionError "io error"

/-- A challenge handler that always signs. -/
def hconst : ChallengeHandler := fun _ _ => Except.ok ⟨"sig", []⟩

/-- A receive script with two CHALLENGE frames before WELCOME. -/
def recvs2 : List RecvResult :=
  [Except.ok (Msg.Challenge "ticket" []),
   Except.ok (Msg.Challenge "ticket" []),
   Except.ok (Msg.Welcome 9 [])]

/-! # Theorems -/

example : is_valid_strict_uri "com" = true := by decide
example : is_valid_strict_uri "wamp.foo" = false := by decide
example : is_valid_strict_uri "Com.Example" = false := by decide
example : is_valid_strict_uri "com..foo" = false := by decide
example : is_valid_strict_uri "c_m" = true := by decide

/-! ## Helper lemmas (shared) -/

/-- With no challenge handler, the WELCOME/CHALLENGE loop sends nothing
and never invokes a handler. -/
theorem join_loop_none_sends (recvs : List RecvResult)
    (ss : List (Option WampError)) :
    (join_loop none recvs ss).sends = [] ∧
    (join_loop none recvs ss).handler_calls = 0 := by
  cases recvs with
  | nil => exact ⟨rfl, rfl⟩
  | cons r rest =>
    cases r with
    | error e => exact ⟨rfl, rfl⟩
    | ok m => cases m <;> exact ⟨rfl, rfl⟩

/-- The loop invokes the challenge handler at most once per CHALLENGE
frame of the receive script. -/
theorem join_loop_handler_calls_le (h : Option ChallengeHandler) :
    ∀ (recvs : List RecvResult) (ss : List (Option WampError)),
      (join_loop h recvs ss).handler_calls ≤ challenge_count recvs := by
  intro recvs
  induction recvs with
  | nil => intro ss; simp [join_loop, challenge_count]
  | cons r rest ih =>
    intro ss
    cases r with
    | error e => simp [join_loop, challenge_count]
    | ok m =>
      cases m with
      | Challenge method extra =>
        cases h with
        | none => simp [join_loop, challenge_count]
        | some f =>
          cases hf : f method extra with
          | error e =>
            simp [join_loop, challenge_count, hf]
          | ok resp =>
            cases ss with
            | nil =>
              simp only [join_loop, hf, popSend, challenge_count]
              exact Nat.add_le_add_left (ih []) 1
            | cons o ss1 =>
              cases o with
              | none =>
                simp only [join_loop, hf, popSend, challenge_count]
                exact Nat.add_le_add_left (ih ss1) 1
              | some e =>
                simp [join_loop, challenge_count, hf, popSend]
      | Welcome session details => simp [join_loop, challenge_count]
      | Hello realm details => simp [join_loop, challenge_count]
      | Authenticate sig extra => simp [join_loop, challenge_count]
      | Goodbye reason details => simp [join_loop, challenge_count]
      | Subscribe a b c => simp [join_loop, challenge_count]
      | Unsubscribe a b => simp [join_loop, challenge_count]
      | Publish a b c d f => simp [join_loop, challenge_count]
      | Register a b c => simp [join_loop, challenge_count]
      | Unregister a b => simp [join_loop, challenge_count]
      | Call a b c d f => simp [join_loop, challenge_count]
      | Yield a b c d => simp [join_loop, challenge_count]
      | Error a b c d f g => simp [join_loop, challenge_count]

/-- Building the HELLO details never panics when no `authextra` map is
supplied. -/
theorem join_details_none_extra_is_some (roles : List ClientRole)
    (agent : Option WampString) (ams : List WampString)
    (authid : Option WampString) :
    ∃ d, join_details roles agent ams none authid = some d := by
  cases ams <;> cases authid <;>
    simp [join_details]

/-! ## Claim theorems -/

/-- **C1** (code bug).  The claim (and the spec) say `is_valid_strict_uri`
accepts lowercase/digit/underscore characters separated by non-empty
dot-delimited tokens, with `"com.example.foo"` and `"com.ex_ample"` valid.
The code disagrees: the `c == '.'` arm of the loop lacks a `continue`, so
every dot also reaches the `is_lowercase` check and is rejected — making
the zero-length-token bookkeeping unreachable dead logic — and digits are
rejected too (`'7'.is_lowercase()` is false), making the later
`is_alphanumeric` check dead as well.  The code's own warn messages
("zero length token", dedicated dot handling) show the dotted form was the
intent; the claim is right and the code is a slip.  This theorem evaluates
the embedded code at the failing inputs. -/
theorem c1_uri_validator_rejects_every_dotted_uri :
    is_valid_strict_uri "com.example.foo" = false ∧
    is_valid_strict_uri "com.ex_ample" = false ∧
    is_valid_strict_uri "com7" = false := by
  decide

/-- **C10** (confirmed).  `is_valid_strict_uri` returns `true` on the empty
string: it does not start with `"wamp."` and the character loop accepts an
empty character sequence. -/
theorem c10_empty_uri_is_valid : is_valid_strict_uri "" = true := by
  decide

/-- **C2**, counterexample.  The claim says a failed SUBSCRIBE send
propagates the transport error to the caller through its completion
signal.  At this concrete input the send fails with a transport error and
yet nothing is written to the completion channel (`resolution = none`):
the `res.send(Err(e))` of that branch is commented out in the source. -/
theorem c2_counterexample :
    (subscribe core0 "com" [] 7 (some e0)).resolution = none ∧
    (subscribe core0 "com" [] 7 (some e0)).status = Status.Shutdown := by
  exact ⟨rfl, rfl⟩

/-- **C2**, amended.  On a SUBSCRIBE send failure the engine rolls back
the request-id allocation (the pending set is restored), parks nothing in
the subscribe-table, and returns `Shutdown` — but the completion channel
is dropped unresolved: the transport error is *not* written into it. -/
theorem c2_subscribe_send_failure_rolls_back (core : Core)
    (topic : WampString) (options : WampDict) (res : ResToken)
    (e : WampError) :
    (subscribe core topic options res (some e)).core.pending_requests
      = core.pending_requests ∧
    (subscribe core topic options res (some e)).core.pending_sub
      = core.pending_sub ∧
    (subscribe core topic options res (some e)).resolution = none ∧
    (subscribe core topic options res (some e)).status = Status.Shutdown ∧
    (subscribe core topic options res (some e)).sends
      = [⟨Msg.Subscribe core.next_request_id topic options, some e⟩] := by
  refine ⟨?_, rfl, rfl, rfl, rfl⟩
  simp [subscribe, Core.create_request]

/-- **C3**, counterexample.  The claim says the challenge handler is
invoked at most once per join attempt.  In this concrete attempt the
router issues two CHALLENGE frames before WELCOME and the loop re-enters,
invoking the handler twice. -/
theorem c3_counterexample :
    join_handler_calls
      (join_realm core0 "realm" [] none [] none none (some hconst) [] recvs2)
      = 2 := by
  rfl

/-- **C3**, amended.  The challenge handler is invoked at most once per
CHALLENGE frame the router sends during the attempt — and hence only when
a CHALLENGE is issued (zero CHALLENGE frames force zero invocations) —
but a single join attempt may invoke it several times when the router
issues several CHALLENGEs. -/
theorem c3_handler_calls_bounded_by_challenges (core : Core)
    (uri : WampString) (roles : List ClientRole)
    (agent : Option WampString) (ams : List WampString)
    (extra : Option (List (String × String))) (authid : Option WampString)
    (h : Option ChallengeHandler) (ss : List (Option WampError))
    (recvs : List RecvResult) :
    join_handler_calls
        (join_realm core uri roles agent ams extra authid h ss recvs)
      ≤ challenge_count recvs := by
  cases hd : join_details roles agent ams extra authid with
  | none => simp [join_realm, hd, join_handler_calls]
  | some d =>
    cases ss with
    | nil =>
      cases ho : (join_loop h recvs []).outcome with
      | ok v =>
        simpa [join_realm, hd, popSend, ho, join_handler_calls]
          using join_loop_handler_calls_le h recvs []
      | error e =>
        simpa [join_realm, hd, popSend, ho, join_handler_calls]
          using join_loop_handler_calls_le h recvs []
    | cons o ss1 =>
      cases o with
      | some e => simp [join_realm, hd, popSend, join_handler_calls]
      | none =>
        cases ho : (join_loop h recvs ss1).outcome with
        | ok v =>
          simpa [join_realm, hd, popSend, ho, join_handler_calls]
            using join_loop_handler_calls_le h recvs ss1
        | error e =>
          simpa [join_realm, hd, popSend, ho, join_handler_calls]
            using join_loop_handler_calls_le h recvs ss1

/-- **C4** (confirmed).  When an invocation handler fails with an
application error carrying URI `u` and a detail payload with positional
values `a` and keyword values `k`, the outbound ERROR frame carries `u`,
`a` and `k` verbatim; for every other error the frame carries the library
URI `"wamp.async.rs.rpc.failed"` and the error's debug rendering as sole
positional argument (with an empty keyword map).  Stated for an accepted
send, covering both remaining error variants. -/
theorem c4_invoke_yield_error_mapping (core : Core) (request : WampId)
    (u : WampString) (a : WampArgs) (k : WampKwArgs) (s t : String) :
    invoke_yield core request
        (Except.error (WampError.ApplicationError u ⟨some a, some k⟩)) none
      = some { core := core, status := Status.Ok
               sends := [⟨Msg.Error INVOCATION_ID request [] u
                            (some a) (some k), none⟩]
               resolution := none } ∧
    invoke_yield core request
        (Except.error (WampError.UnknownError s)) none
      = some { core := core, status := Status.Ok
               sends := [⟨Msg.Error INVOCATION_ID request []
                            "wamp.async.rs.rpc.failed"
                            (some [Arg.String
                              (WampError.UnknownError s).debug_fmt])
                            (some []), none⟩]
               resolution := none } ∧
    invoke_yield core request
        (Except.error (WampError.ConnectionError t)) none
      = some { core := core, status := Status.Ok
               sends := [⟨Msg.Error INVOCATION_ID request []
                            "wamp.async.rs.rpc.failed"
                            (some [Arg.String
                              (WampError.ConnectionError t).debug_fmt])
                            (some []), none⟩]
               resolution := none } := by
  exact ⟨rfl, rfl, rfl⟩

/-- **C5** (confirmed).  With no challenge handler configured, a join
attempt never hands an AUTHENTICATE frame to the transport (for every
transport script), and if the router answers the HELLO with a CHALLENGE
the caller's channel is resolved with the no-handler authentication error
and the handler returns `Shutdown`. -/
theorem c5_challenge_without_handler_fails_join (core : Core)
    (uri : WampString) (roles : List ClientRole)
    (agent : Option WampString) (ams : List WampString)
    (extra : Option (List (String × String))) (authid : Option WampString)
    (ss ssc : List (Option WampError)) (recvs : List RecvResult)
    (m : WampString) (ex : WampDict) (rest : List RecvResult) :
    (join_sends
        (join_realm core uri roles agent ams extra authid none ss recvs)).all
        (fun se => !se.frame.is_authenticate) = true ∧
    join_resolution
        (join_realm core uri roles agent ams none authid none (none :: ssc)
          (Except.ok (Msg.Challenge m ex) :: rest))
      = some (Except.error (WampError.UnknownError
          "Server requested a CHALLENGE to authenticate, but there was no challenge handler provided")) ∧
    join_status
        (join_realm core uri roles agent ams none authid none (none :: ssc)
          (Except.ok (Msg.Challenge m ex) :: rest))
      = some Status.Shutdown := by
  obtain ⟨d, hd⟩ := join_details_none_extra_is_some roles agent ams authid
  refine ⟨?_, ?_, ?_⟩
  · cases hd2 : join_details roles agent ams extra authid with
    | none => simp [join_realm, hd2, join_sends]
    | some d2 =>
      cases ss with
      | nil =>
        obtain ⟨hs, _⟩ := join_loop_none_sends recvs []
        cases ho : (join_loop none recvs []).outcome with
        | ok v =>
          simp [join_realm, hd2, popSend, ho, join_sends, hs, Msg.is_authenticate]
        | error e =>
          simp [join_realm, hd2, popSend, ho, join_sends, hs, Msg.is_authenticate]
      | cons o ss1 =>
        cases o with
        | some e =>
          simp [join_realm, hd2, popSend, join_sends, Msg.is_authenticate]
        | none =>
          obtain ⟨hs, _⟩ := join_loop_none_sends recvs ss1
          cases ho : (join_loop none recvs ss1).outcome with
          | ok v =>
            simp [join_realm, hd2, popSend, ho, join_sends, hs,
              Msg.is_authenticate]
          | error e =>
            simp [join_realm, hd2, popSend, ho, join_sends, hs,
              Msg.is_authenticate]
  · simp [join_realm, hd, popSend, join_loop, join_resolution,
      WampError.fromString]
  · simp [join_realm, hd, popSend, join_loop, join_status,
      WampError.fromString]

/-- **C6** (confirmed).  An `unsubscribe` on a subscription id absent from
the local subscription table, and an `unregister` on a registration id
absent from the local registration table, each resolve the caller at once
with the caller error, send no frame, allocate no request id, and leave
the whole engine state — validity flag, counter and every table —
unchanged, returning `Ok`. -/
theorem c6_unknown_local_id_fails_immediately (core : Core)
    (sub_id rpc_id : WampId) (res1 res2 : ResToken)
    (s1 s2 : Option WampError)
    (h1 : core.subscriptions.lookup sub_id = none)
    (h2 : core.rpc_endpoints.lookup rpc_id = none) :
    unsubscribe core sub_id res1 s1
      = { core := core, status := Status.Ok, sends := []
          resolution := some (WampError.UnknownError
            "Tried to unsubscribe from unknown sub_id") } ∧
    unregister core rpc_id res2 s2
      = { core := core, status := Status.Ok, sends := []
          resolution := some (WampError.UnknownError
            "Tried to unregister RPC using invalid ID") } := by
  constructor
  · simp [unsubscribe, h1, WampError.fromString]
  · simp [unregister, h2, WampError.fromString]

/-- Witness for C6: the fresh engine state holds no subscription `5` and
no registration `6`, and both operations fail locally exactly as the
theorem states. -/
theorem c6_witness :
    unsubscribe core0 5 1 none
      = { core := core0, status := Status.Ok, sends := []
          resolution := some (WampError.UnknownError
            "Tried to unsubscribe from unknown sub_id") } ∧
    unregister core0 6 2 none
      = { core := core0, status := Status.Ok, sends := []
          resolution := some (WampError.UnknownError
            "Tried to unregister RPC using invalid ID") } :=
  c6_unknown_local_id_fails_immediately core0 5 6 1 2 none none rfl rfl

/-- **C7** (confirmed).  `leave_realm` threads a state whose `valid`
flag is already cleared into the GOODBYE send (so the session is invalid
before — and regardless of — the send): on an accepted send the caller is
resolved with success without consuming any inbound frame (the handler
takes no receive script at all), and on a transport failure the caller is
resolved with that error while the session remains invalid. -/
theorem c7_leave_marks_invalid_before_goodbye (core : Core)
    (res : ResToken) (e : WampError) :
    (leave_realm core res none).core = { core with valid_session := false } ∧
    (leave_realm core res none).status = Status.Ok ∧
    (leave_realm core res none).sends
      = [⟨Msg.Goodbye "wamp.close.close_realm" [], none⟩] ∧
    (leave_realm core res none).resolution = some (Except.ok ()) ∧
    (leave_realm core res (some e)).core
      = { core with valid_session := false } ∧
    (leave_realm core res (some e)).status = Status.Shutdown ∧
    (leave_realm core res (some e)).sends
      = [⟨Msg.Goodbye "wamp.close.close_realm" [], some e⟩] ∧
    (leave_realm core res (some e)).resolution
      = some (Except.error e) := by
  exact ⟨rfl, rfl, rfl, rfl, rfl, rfl, rfl, rfl⟩

/-- **C8** (confirmed).  Every handler that hands a frame to the
transport returns `Shutdown` when that send fails: subscribe, unsubscribe
(on a held id), publish, register, unregister (on a held id), call,
invoke_yield (for a successful and for a failed invocation outcome), the
HELLO send of join, and the AUTHENTICATE send of join — so a transport
send failure is always fatal to the session engine. -/
theorem c8_send_failure_is_always_shutdown (core : Core) (e : WampError)
    (topic uri : WampString) (options : WampDict)
    (arguments : Option WampArgs) (arguments_kw : Option WampKwArgs)
    (res : ResToken) (func_ptr : RpcTok) (v : ResToken)
    (sub_id rpc_id request : WampId) (opts : Option WampDict) (s : String)
    (roles : List ClientRole) (agent : Option WampString)
    (ams : List WampString) (authid : Option WampString)
    (sig : WampString) (exd : WampDict) (m : WampString) (ex : WampDict)
    (ssr : List (Option WampError)) (recvs rest : List RecvResult) :
    (subscribe core topic options res (some e)).status = Status.Shutdown ∧
    (unsubscribe
        { core with subscriptions := (sub_id, v) :: core.subscriptions }
        sub_id res (some e)).status = Status.Shutdown ∧
    (publish core uri options arguments arguments_kw res (some e)).status
      = Status.Shutdown ∧
    (register core uri res func_ptr opts (some e)).status
      = Status.Shutdown ∧
    (unregister
        { core with rpc_endpoints := (rpc_id, func_ptr) :: core.rpc_endpoints }
        rpc_id res (some e)).status = Status.Shutdown ∧
    (call core uri options arguments arguments_kw res (some e)).status
      = Status.Shutdown ∧
    (invoke_yield core request (Except.ok (arguments, arguments_kw))
        (some e)).map (fun h => h.status) = some Status.Shutdown ∧
    (invoke_yield core request (Except.error (WampError.UnknownError s))
        (some e)).map (fun h => h.status) = some Status.Shutdown ∧
    join_status
        (join_realm core uri roles agent ams none authid none
          (some e :: ssr) recvs) = some Status.Shutdown ∧
    join_status
        (join_realm core uri roles agent ams none authid
          (some (fun _ _ => Except.ok ⟨sig, exd⟩))
          (none :: some e :: ssr)
          (Except.ok (Msg.Challenge m ex) :: rest)) = some Status.Shutdown := by
  obtain ⟨d, hd⟩ := join_details_none_extra_is_some roles agent ams authid
  refine ⟨rfl, ?_, rfl, ?_, ?_, rfl, rfl, rfl, ?_, ?_⟩
  · simp [unsubscribe, List.lookup]
  · cases opts <;> rfl
  · simp [unregister, List.lookup]
  · simp [join_realm, hd, popSend, join_status]
  · simp [join_realm, hd, popSend, join_loop, join_status]

/-- **C9** (confirmed).  A join request supplying a non-empty
authentication-methods list together with an `authextra` map lacking the
`"pubkey"` key panics while building the HELLO details — the
`extra.get("pubkey").unwrap()` of the source, embedded as the `none`
result — before any frame is sent and before anything is written to the
caller's result channel. -/
theorem c9_missing_pubkey_panics (core : Core) (uri : WampString)
    (roles : List ClientRole) (agent : Option WampString)
    (authid : Option WampString) (h : Option ChallengeHandler)
    (ss : List (Option WampError)) (recvs : List RecvResult)
    (ams : List WampString) (extra : List (String × String))
    (hne : ams ≠ []) (hpk : extra.lookup "pubkey" = none) :
    join_realm core uri roles agent ams (some extra) authid h ss recvs
      = none := by
  cases ams with
  | nil => exact absurd rfl hne
  | cons a ams1 =>
    simp [join_realm, join_details, hpk]

/-- Witness for C9: one authentication method, an extra map holding only
an unrelated key, hence no `"pubkey"`: the join panics. -/
theorem c9_witness :
    join_realm core0 "realm" [] none ["wampcra"] (some [("color", "red")])
      none none [] [] = none :=
  c9_missing_pubkey_panics core0 "realm" [] none none none [] []
    ["wampcra"] [("color", "red")] (by decide) (by decide)

end WampAsync
